import Mathlib

/-!
Verification development for the workflow-compilation and execution core of
the sample-self-rag repository.  The Python sources under `src/` are embedded
shallowly: pure functions become Lean functions, mutation of `self` fields or
of the session object becomes explicit state passing, a Python `raise` that a
caller can observe becomes an `Except`/error constructor, and the unbounded
recursion of `AgentFactory.create_agent` is made observable through a fuel
parameter (`CompRes.out` marks fuel exhaustion; a call that returns `.out`
for every fuel value diverges in the source).
-/

/-- Model of the Python values that flow through session state, tool
arguments and route tables in this repository: `None`, booleans, integers
and strings.  (`src` uses `dict[str, Any]` state; these four constructors cover
every value the embedded code paths inspect.) -/
inductive PyVal where
  | none
  | bool (b : Bool)
  | int (n : Int)
  | str (s : String)
deriving DecidableEq, Repr

/-- Python `str(...)` on the embedded values: `str(None) = "None"`,
`str(True) = "True"`, `str(False) = "False"`, integers print in decimal,
and `str` of a string is the string itself. -/
def pyStr : PyVal → String
  | .none => "None"
  | .bool true => "True"
  | .bool false => "False"
  | .int n => toString n
  | .str s => s

/-- Association-list lookup, first match wins: the embedding of reading a
Python `dict` (keys are unique by construction in every state we build). -/
def alistGet {α : Type} (d : List (String × α)) (k : String) : Option α :=
  match d with
  | [] => Option.none
  | (k', v) :: rest => if k' = k then some v else alistGet rest k

/-- Association-list write, embedding Python `d[k] = v`: an existing key is
updated in place (insertion order preserved), a new key is appended. -/
def alistSet {α : Type} (d : List (String × α)) (k : String) (v : α) : List (String × α) :=
  match d with
  | [] => [(k, v)]
  | (k', v') :: rest => if k' = k then (k, v) :: rest else (k', v') :: alistSet rest k v

/-- Embedding of Python `d.update(delta)`: every key of `delta` is written
into `d` in order. -/
def alistUpdate {α : Type} (d delta : List (String × α)) : List (String × α) :=
  delta.foldl (fun acc kv => alistSet acc kv.1 kv.2) d

/-- Session/state dictionaries: string keys to Python values. -/
abbrev PyDict := List (String × PyVal)

/-- Python regex `\w` on the character class used by the placeholder pattern
`\x7b(\w+)\x7d`: letters, digits and underscore. -/
def isWordChar (c : Char) : Bool := c.isAlpha || c.isDigit || c = '_'

/-- One left-to-right scan of `re.sub` with pattern `\x7b(\w+)\x7d`
(`tool_agent.py` line 40, `external_agent.py` line 51, `router_agent.py`
line 69): at each position a `\x7bkey\x7d` group with a non-empty word-character
key is replaced by `repl key` and scanning resumes after the match — the
replacement text is never rescanned; any other character is copied.  The
fuel argument bounds the scan; one character is consumed per step, so fuel
equal to the length of the input makes the `0` case unreachable. -/
def substFuel (repl : String → String) : Nat → List Char → List Char
  | 0, l => l
  | _ + 1, [] => []
  | n + 1, c :: cs =>
    if c = '{' then
      match cs.dropWhile isWordChar with
      | '}' :: rest =>
        let key := cs.takeWhile isWordChar
        if key.isEmpty then c :: substFuel repl n cs
        else (repl (String.mk key)).toList ++ substFuel repl n rest
      | _ => c :: substFuel repl n cs
    else c :: substFuel repl n cs

/-- Embedding of `re.sub(r'\x7b(\w+)\x7d', repl, text)` as used throughout
the repository. -/
def pySub (repl : String → String) (text : String) : String :=
  String.mk (substFuel repl text.toList.length text.toList)

/-- The shared replacement logic of `ToolAgent._resolve_arguments.replace_placeholder`
(`tool_agent.py` lines 35-38) and `ExternalAgent._resolve_string.replace_placeholder`
(`external_agent.py` lines 43-49): `state.get(key, match.group(0))` followed by
`str(value) if value is not None else ""` — a missing key keeps the literal
token, a key bound to `None` becomes the empty string, anything else is
stringified. -/
def placeholderValue (state : PyDict) (key : String) : String :=
  match alistGet state key with
  | Option.none => "\x7b" ++ key ++ "\x7d"
  | some PyVal.none => ""
  | some v => pyStr v

/-- Embedding of `ToolAgent._resolve_arguments` (`tool_agent.py` lines 28-44):
string-valued arguments get one placeholder-substitution pass against the
state snapshot, non-string values pass through unchanged. -/
def ToolAgent.resolveArguments (arguments : List (String × PyVal)) (state : PyDict) :
    List (String × PyVal) :=
  arguments.map fun kv =>
    match kv with
    | (k, PyVal.str s) => (k, PyVal.str (pySub (placeholderValue state) s))
    | (k, v) => (k, v)

/-- Embedding of `ExternalAgent._resolve_string` (`external_agent.py` lines
38-51): empty text short-circuits to `""`, otherwise one substitution pass. -/
def ExternalAgent.resolveString (text : String) (state : PyDict) : String :=
  if text = "" then "" else pySub (placeholderValue state) text

/-- Embedding of the brace-stripping in `RouterAgent._evaluate_condition`
(`router_agent.py` line 69): `re.sub(r'\x7b(\w+)\x7d', r'\1', condition)`
rewrites every placeholder to the bare identifier. -/
def RouterAgent.cleanCondition (condition : String) : String :=
  pySub (fun k => k) condition

/-- Abstract syntax of the Python-expression fragment that router conditions
in this repository use: a bare state variable, or a comparison of a state
variable against an integer literal. -/
inductive CondExpr where
  | var (name : String)
  | cmpGt (name : String) (lit : Int)
  | cmpLt (name : String) (lit : Int)
deriving DecidableEq, Repr

def skipSpaces (cs : List Char) : List Char := cs.dropWhile (· = ' ')

/-- Read a Python identifier prefix (word characters, not starting with a
digit). -/
def readIdent (cs : List Char) : Option (String × List Char) :=
  let w := cs.takeWhile isWordChar
  match w with
  | [] => Option.none
  | c :: _ => if c.isDigit then Option.none
              else some (String.mk w, cs.dropWhile isWordChar)

/-- Read a decimal integer literal prefix. -/
def readIntLit (cs : List Char) : Option (Int × List Char) :=
  let w := cs.takeWhile Char.isDigit
  match w with
  | [] => Option.none
  | _ =>
    let n : Nat := w.foldl (fun acc c => 10 * acc + (c.toNat - 48)) 0
    some ((n : Int), cs.dropWhile Char.isDigit)

/-- Parse the cleaned condition string into the expression fragment above.
This stands in for handing the cleaned string to Python `eval`: an input the
fragment does not cover corresponds to a syntax error (or an unsupported
construct), which `eval` raises and line 74 of `router_agent.py` catches. -/
def parseCond (s : String) : Option CondExpr :=
  match readIdent (skipSpaces s.toList) with
  | Option.none => Option.none
  | some (name, rest) =>
    match skipSpaces rest with
    | [] => some (.var name)
    | '>' :: rest2 =>
      match readIntLit (skipSpaces rest2) with
      | some (n, rest3) => if skipSpaces rest3 = [] then some (.cmpGt name n) else Option.none
      | Option.none => Option.none
    | '<' :: rest2 =>
      match readIntLit (skipSpaces rest2) with
      | some (n, rest3) => if skipSpaces rest3 = [] then some (.cmpLt name n) else Option.none
      | Option.none => Option.none
    | _ => Option.none

/-- Python numeric coercion for comparison operands: `bool` is an `int`
subtype (`True = 1`, `False = 0`); `None` and strings do not order against
integers and raise `TypeError`. -/
def pyToInt : PyVal → Option Int
  | .int n => some n
  | .bool b => some (if b then 1 else 0)
  | _ => Option.none

/-- Evaluation of the condition fragment with the state snapshot as the sole
variable namespace, matching `eval(clean_condition, \x7b\x7d, state)`
(`router_agent.py` line 71): an unbound variable is a `NameError`, a
non-numeric comparison operand a `TypeError`; both surface as exceptions. -/
def evalCond (e : CondExpr) (state : PyDict) : Except String PyVal :=
  match e with
  | .var name =>
    match alistGet state name with
    | some v => .ok v
    | Option.none => .error ("name " ++ name ++ " is not defined")
  | .cmpGt name lit =>
    match alistGet state name with
    | Option.none => .error ("name " ++ name ++ " is not defined")
    | some v =>
      match pyToInt v with
      | some m => .ok (.bool (decide (lit < m)))
      | Option.none => .error "unsupported operand types for comparison"
  | .cmpLt name lit =>
    match alistGet state name with
    | Option.none => .error ("name " ++ name ++ " is not defined")
    | some v =>
      match pyToInt v with
      | some m => .ok (.bool (decide (m < lit)))
      | Option.none => .error "unsupported operand types for comparison"

/-- Embedding of `RouterAgent._evaluate_condition` (`router_agent.py` lines
33-79): strip braces, evaluate against the state snapshot, stringify the
result; any evaluation exception is re-raised as
`ValueError("Router condition evaluation failed: ...")`, modelled by the
`.error` constructor. -/
def RouterAgent.evaluateCondition (condition : String) (state : PyDict) :
    Except String String :=
  match parseCond (RouterAgent.cleanCondition condition) with
  | Option.none =>
    .error ("Router condition evaluation failed: invalid syntax in " ++
            RouterAgent.cleanCondition condition)
  | some e =>
    match evalCond e state with
    | .ok v => .ok (pyStr v)
    | .error msg => .error ("Router condition evaluation failed: " ++ msg)

/-- Router node data: condition string and route table mapping stringified
condition results to compiled child agents (type parameter `α`). -/
structure RouterAgent (α : Type) where
  name : String
  condition : String
  routes : List (String × α)

/-- Route-key selection of `RouterAgent._run_async_impl` lines 94-102:
direct lookup first; on a miss, a result key `"True"` retries `"true"` and a
result key `"False"` retries `"false"`.  (The source additionally tries the
Python booleans `True`/`False` as dict keys, which can never match the
string-keyed `routes: dict[str, BaseAgent]`.) -/
def RouterAgent.selectRoute {α : Type} (routes : List (String × α)) (resultKey : String) :
    Option α :=
  match alistGet routes resultKey with
  | some a => some a
  | Option.none =>
    if resultKey = "True" then alistGet routes "true"
    else if resultKey = "False" then alistGet routes "false"
    else Option.none

/-- Outcome of one router invocation: forward execution to a child, or emit
one diagnostic event and end the branch normally. -/
inductive RouterOutcome (α : Type) where
  | dispatched (child : α)
  | missEvent (text : String)
deriving DecidableEq, Repr

/-- Embedding of `RouterAgent._run_async_impl` (`router_agent.py` lines
81-138): snapshot the session state, evaluate the condition (an evaluation
failure propagates as the exception, `Except.error`), select the route with
boolean-casing retry, and either dispatch to the single selected child or
yield the no-route diagnostic event. -/
def RouterAgent.runAsyncImpl {α : Type} (r : RouterAgent α) (sessionState : PyDict) :
    Except String (RouterOutcome α) :=
  match RouterAgent.evaluateCondition r.condition sessionState with
  | .error e => .error e
  | .ok resultKey =>
    match RouterAgent.selectRoute r.routes resultKey with
    | some child => .ok (.dispatched child)
    | Option.none =>
      .ok (.missEvent ("Router " ++ r.name ++ ": No route found for result " ++
                       resultKey ++ " (Routes: " ++
                       String.intercalate ", " (r.routes.map Prod.fst) ++ ")"))

/-- The `type` discriminator of `AgentConfig` (`schema.py` line 58).  The
`workflow` variant (sub-workflow splice) recursively loads another YAML file
and is outside this embedding; no claim exercises it. -/
inductive AgentType where
  | llm | sequential | parallel | loop | tool | router | external | a2a
deriving DecidableEq, Repr

/-- The fields of `AgentConfig` (`schema.py` lines 54-91) that the embedded
factory paths read.  The optional `context` block (which would add a
`ContextWrapperAgent` layer, `agent_factory.py` lines 67-80) is omitted:
none of the configurations the claims quantify over declare one. -/
structure AgentConfigM where
  name : String
  type : AgentType
  model : Option String := Option.none
  output_key : Option String := Option.none
  sub_agents : List String := []
  max_iterations : Option Nat := Option.none
  tool_name : Option String := Option.none
  arguments : List (String × PyVal) := []
  condition : Option String := Option.none
  routes : List (String × String) := []
  url : Option String := Option.none
deriving Repr

/-- Compiled node graph produced by the factory: one constructor per agent
variant the embedding covers, with resolved children inlined (sharing in the
source is by object reference; here a shared node appears as an equal
subtree and the memo table witnesses the sharing). -/
inductive BNode where
  | llm (name : String) (model : String)
  | seq (name : String) (subs : List BNode)
  | par (name : String) (subs : List BNode)
  | loop (name : String) (subs : List BNode) (maxIterations : Nat)
  | toolA (name : String) (toolName : String) (arguments : List (String × PyVal))
      (output_key : Option String)
  | routerA (name : String) (condition : String) (routes : List (String × BNode))
  | externalA (name : String) (url : String)
  | startA (name : String) (initialState : PyDict)
  | exitA (name : String) (emitFullState : Bool) (output_key : Option String)
      (outputKeys : List String)

/-- Node name accessor (ADK `BaseAgent.name`). -/
def BNode.nameOf : BNode → String
  | .llm n _ => n
  | .seq n _ => n
  | .par n _ => n
  | .loop n _ _ => n
  | .toolA n _ _ _ => n
  | .routerA n _ _ => n
  | .externalA n _ => n
  | .startA n _ => n
  | .exitA n _ _ _ => n

/-- Result of a fuel-bounded compilation step: `out` is fuel exhaustion (the
source has no such bound, so a computation that is `out` at every fuel
diverges there), `err` is a raised `ValueError`, `ok` a normal return. -/
inductive CompRes (α : Type) where
  | out
  | err (msg : String)
  | ok (a : α)

/-- The factory's memo table `self._created_agents : dict[str, BaseAgent]`
(`agent_factory.py` line 28). -/
abbrev Memo := List (String × BNode)

/-- The construction context of `AgentFactory`: the workflow's agent
declarations (for `config.get_agent_by_name`), the names of registered
tools, and `config.defaults.model`. -/
structure FactoryM where
  agents : List AgentConfigM
  tools : List String
  defaultModel : String

/-- Embedding of `WorkflowConfig.get_agent_by_name` (`schema.py` lines
143-148): first declaration with the given name. -/
def getAgentByName (agents : List AgentConfigM) (name : String) : Option AgentConfigM :=
  agents.find? (fun a => a.name = name)

/-- Embedding of `AgentFactory.create_agent` (`agent_factory.py` lines
30-83) together with the helpers it dispatches to
(`_create_sequential_agent`, `_create_parallel_agent`, `_create_loop_agent`,
`_create_tool_agent`, `_create_router_agent`, `_create_llm_agent`,
`_create_external_agent`; lines 85-317).  Control flow is kept exactly: the
memo is consulted on entry (line 41) and written only after the variant
constructor — including all of its recursive `create_agent` calls — has
returned (line 82).  Each recursive call spends one unit of fuel, so `.out`
at every fuel value is unbounded recursion in the source. -/
def create_agent (f : FactoryM) : Nat → AgentConfigM → Memo → CompRes (BNode × Memo)
  | 0, _, _ => .out
  | fuel + 1, cfg, memo =>
    match alistGet memo cfg.name with
    | some node => .ok (node, memo)
    | Option.none =>
      -- the `for` loop of `_create_sub_agents` (lines 309-317): resolve each
      -- member name to its configuration (missing name raises a ValueError)
      -- and create it through `create_agent`
      let subAgentsOf : List String → CompRes (List BNode × Memo) := fun names =>
        names.foldl
          (fun acc name =>
            match acc with
            | .ok (nodes, m) =>
              match getAgentByName f.agents name with
              | Option.none => .err ("Sub-agent not found: " ++ name)
              | some subCfg =>
                match create_agent f fuel subCfg m with
                | .ok (node, m') => .ok (nodes ++ [node], m')
                | .err e => .err e
                | .out => .out
            | e => e)
          (.ok ([], memo))
      -- the route-resolution loop of `_create_router_agent` (lines 217-229):
      -- use the memoized target if present, otherwise look up its
      -- configuration (missing target raises a ValueError) and create it
      let routesOf : List (String × String) → CompRes (List (String × BNode) × Memo) :=
        fun routes =>
          routes.foldl
            (fun acc kv =>
              match acc with
              | .ok (rs, m) =>
                match alistGet m kv.2 with
                | some node => .ok (rs ++ [(kv.1, node)], m)
                | Option.none =>
                  match getAgentByName f.agents kv.2 with
                  | Option.none => .err ("Router target agent not found: " ++ kv.2)
                  | some targetCfg =>
                    match create_agent f fuel targetCfg m with
                    | .ok (node, m') => .ok (rs ++ [(kv.1, node)], m')
                    | .err e => .err e
                    | .out => .out
              | e => e)
            (.ok ([], memo))
      let built : CompRes (BNode × Memo) :=
        match cfg.type with
        | .llm =>
          .ok (.llm cfg.name (cfg.model.getD f.defaultModel), memo)
        | .sequential =>
          match subAgentsOf cfg.sub_agents with
          | .ok (subs, memo') => .ok (.seq cfg.name subs, memo')
          | .err e => .err e
          | .out => .out
        | .parallel =>
          match subAgentsOf cfg.sub_agents with
          | .ok (subs, memo') => .ok (.par cfg.name subs, memo')
          | .err e => .err e
          | .out => .out
        | .loop =>
          match subAgentsOf cfg.sub_agents with
          | .ok (subs, memo') =>
            .ok (.loop cfg.name subs (cfg.max_iterations.getD 10), memo')
          | .err e => .err e
          | .out => .out
        | .tool =>
          match cfg.tool_name with
          | Option.none =>
            .err ("Tool agent " ++ cfg.name ++ " requires tool_name to be specified")
          | some tn =>
            if f.tools.contains tn then
              .ok (.toolA cfg.name tn cfg.arguments cfg.output_key, memo)
            else .err ("Tool not found: " ++ tn)
        | .router =>
          match cfg.condition with
          | Option.none => .err ("Router agent " ++ cfg.name ++ " requires condition")
          | some cond =>
            if cfg.routes.isEmpty then
              .err ("Router agent " ++ cfg.name ++ " requires routes")
            else
              match routesOf cfg.routes with
              | .ok (rs, memo') => .ok (.routerA cfg.name cond rs, memo')
              | .err e => .err e
              | .out => .out
        | .external =>
          match cfg.url with
          | Option.none => .err ("External agent " ++ cfg.name ++ " requires url")
          | some u => .ok (.externalA cfg.name u, memo)
        | .a2a =>
          match cfg.url with
          | Option.none => .err ("A2A agent " ++ cfg.name ++ " requires url")
          | some u => .ok (.externalA cfg.name u, memo)
      match built with
      | .ok (node, memo') => .ok (node, alistSet memo' cfg.name node)
      | .err e => .err e
      | .out => .out

/-- The workflow-level configuration the builder reads (`schema.py` lines
117-141): structural type, ordered member names, loop bound, plus the
workflow name/description and agent declarations. -/
structure WorkflowConfigM where
  name : String
  description : String := ""
  defaultModel : String := "gemini-2.5-flash"
  agents : List AgentConfigM
  workflowType : String
  workflowAgents : List String
  max_iterations : Option Nat := Option.none

/-- Resolve the root composite's member list `[created_agents[name] for name
in sub_agent_names]` (`workflow_builder.py` line 112); a name that was never
compiled is a Python `KeyError`. -/
def lookupAll (memo : Memo) : List String → Option (List BNode)
  | [] => some []
  | name :: rest =>
    match alistGet memo name with
    | Option.none => Option.none
    | some node => (lookupAll memo rest).map (node :: ·)

/-- Embedding of `WorkflowBuilder.build` (`workflow_builder.py` lines
83-137): create every declared agent in order through the shared factory,
then build the root composite of the declared structural type from the
members named in `workflow.agents`.  Tool loading (`_load_custom_tools`) is
summarized by the `tools` name list handed to the factory. -/
def WorkflowBuilder.buildW (cfg : WorkflowConfigM) (tools : List String) (fuel : Nat) :
    CompRes BNode :=
  let f : FactoryM := ⟨cfg.agents, tools, cfg.defaultModel⟩
  let memoRes : CompRes Memo :=
    cfg.agents.foldl
      (fun acc ac =>
        match acc with
        | .ok m =>
          match create_agent f fuel ac m with
          | .ok (_, m') => .ok m'
          | .err e => .err e
          | .out => .out
        | e => e)
      (.ok ([] : Memo))
  match memoRes with
  | .err e => .err e
  | .out => .out
  | .ok memo =>
    match lookupAll memo cfg.workflowAgents with
    | Option.none => .err "KeyError: workflow member was not compiled"
    | some subs =>
      if cfg.workflowType = "sequential" then .ok (.seq cfg.name subs)
      else if cfg.workflowType = "parallel" then .ok (.par cfg.name subs)
      else if cfg.workflowType = "loop" then
        .ok (.loop cfg.name subs (cfg.max_iterations.getD 10))
      else .err ("Unknown workflow type: " ++ cfg.workflowType)

/-- Embedding of `WorkflowBuilder.build_from_yaml` (`workflow_builder.py`
lines 139-164) from the point after the YAML document has been parsed and
validated into a configuration: build the user root, then wrap it in the
fixed lifecycle bracket `SequentialAgent(name_lifecycle, [StartAgent(),
user_root, ExitAgent()])` with both lifecycle agents at their constructor
defaults (`StartAgent` seeds its `initial_state` dict, here empty;
`ExitAgent` with `emit_full_state=False` and no output keys). -/
def WorkflowBuilder.buildFromConfig (cfg : WorkflowConfigM) (tools : List String)
    (fuel : Nat) : CompRes BNode :=
  match WorkflowBuilder.buildW cfg tools fuel with
  | .ok userAgent =>
    .ok (.seq (userAgent.nameOf ++ "_lifecycle")
          [.startA "workflow_start" [], userAgent,
           .exitA "workflow_exit" false Option.none []])
  | .err e => .err e
  | .out => .out

/-- One execution event: author, textual content and the state delta carried
by its actions (empty delta models `actions` being absent). -/
structure EventM where
  author : String
  text : String
  delta : PyDict
deriving DecidableEq, Repr

/-- Embedding of `StartAgent._run_async_impl` (`lifecycle_agents.py` lines
29-52): write every `initial_state` pair into the session state, collect the
same pairs as the event's state delta, and emit one event announcing the
start. -/
def StartAgent.run (initialState : PyDict) (name : String) (sessionState : PyDict) :
    PyDict × EventM :=
  let newState := initialState.foldl (fun st kv => alistSet st kv.1 kv.2) sessionState
  let delta := initialState.foldl (fun d kv => alistSet d kv.1 kv.2) ([] : PyDict)
  (newState, ⟨name, "Workflow execution started.", delta⟩)

/-- Outcome of invoking the registered tool callable: a returned value or a
raised exception with its message (`tool_agent.py` lines 113-121 wrap the
call in `try`/`except`). -/
inductive ToolCallOutcome where
  | ret (v : PyVal)
  | raises (msg : String)

/-- The `ToolAgent` node fields the run path reads (`tool_agent.py` lines
15-26); the optional callback lists are omitted: every configuration the
claims quantify over has `callbacks=None`, which short-circuits both
callback blocks (lines 96 and 125). -/
structure ToolAgentM where
  name : String
  arguments : List (String × PyVal)
  output_key : Option String

/-- Embedding of `ToolAgent._run_async_impl` (`tool_agent.py` lines 86-164)
with `callbacks = None`: snapshot the state, resolve templated arguments,
invoke the callable — a raised exception is caught and becomes the text
`"Tool execution error: ..."` — then store the textual result under
`output_key` (both into the session and into the event's state delta) and
yield one event.  The `Except` layer is the node boundary: an exception that
escaped the node would surface as `.error`, and the definition shows the
`try`/`except` of lines 113-121 is the only fallible step. -/
def ToolAgentM.runAsyncImpl (a : ToolAgentM) (sessionState : PyDict)
    (call : List (String × PyVal) → ToolCallOutcome) :
    Except String (EventM × PyDict) :=
  let state := sessionState
  let resolved := ToolAgent.resolveArguments a.arguments state
  let result_str :=
    match call resolved with
    | .ret v => if v = PyVal.none then "" else pyStr v
    | .raises msg => "Tool execution error: " ++ msg
  match a.output_key with
  | some k =>
    .ok (⟨a.name, result_str, [(k, PyVal.str result_str)]⟩,
         alistSet sessionState k (PyVal.str result_str))
  | Option.none => .ok (⟨a.name, result_str, []⟩, sessionState)

/-- The four state scopes (`schema.py` line 31 and spec section 4.6). -/
inductive Scope where
  | agent | workflow | user | globalS
deriving DecidableEq, Repr

/-- Modelled from the spec: the scoped `StateManager` class itself is not
under `src/` — only its declaration slot (`workflow_builder.py` line 33),
its caller (`orchestrator.py` lines 133-148) and an external inspection
script reference it.  Per spec section 4.6 it keeps four independent
stores; the agent and workflow stores are keyed by a scope-specific id
(here the session id), the user and global stores are the current user's
and the process-wide dictionaries. -/
structure StateManager where
  agentStore : List (String × PyDict)
  workflowStore : List (String × PyDict)
  userStore : PyDict
  globalStore : PyDict

/-- Modelled from the spec: the store a scope resolves to for a session. -/
def StateManager.storeFor (sm : StateManager) (sc : Scope) (sessionId : String) : PyDict :=
  match sc with
  | .agent => (alistGet sm.agentStore sessionId).getD []
  | .workflow => (alistGet sm.workflowStore sessionId).getD []
  | .user => sm.userStore
  | .globalS => sm.globalStore

/-- Modelled from the spec: `get(scope_hint, key, session_id)` resolves per
the shadowing order agent → workflow → user → global regardless of the
caller's scope hint, returning the first store that contains the key
(spec section 4.6). -/
def StateManager.get (sm : StateManager) (scopeHint : Scope) (key : String)
    (sessionId : String) : Option PyVal :=
  let _ := scopeHint
  match alistGet (sm.storeFor .agent sessionId) key with
  | some v => some v
  | Option.none =>
    match alistGet (sm.storeFor .workflow sessionId) key with
    | some v => some v
    | Option.none =>
      match alistGet (sm.storeFor .user sessionId) key with
      | some v => some v
      | Option.none => alistGet (sm.storeFor .globalS sessionId) key

/-- Modelled from the spec: `set(scope, key, value, session_id)` writes only
into the specified scope (spec section 4.6). -/
def StateManager.set (sm : StateManager) (sc : Scope) (key : String) (v : PyVal)
    (sessionId : String) : StateManager :=
  match sc with
  | .agent =>
    let store := alistSet ((alistGet sm.agentStore sessionId).getD []) key v
    { sm with agentStore := alistSet sm.agentStore sessionId store }
  | .workflow =>
    let store := alistSet ((alistGet sm.workflowStore sessionId).getD []) key v
    { sm with workflowStore := alistSet sm.workflowStore sessionId store }
  | .user => { sm with userStore := alistSet sm.userStore key v }
  | .globalS => { sm with globalStore := alistSet sm.globalStore key v }

/-- Modelled from the spec: manager construction seeds the definition's
global initial values into the global scope once at load (spec sections 4.6
and the external inspection script: `StateManager init loads
GlobalContextConfig.initial into global`). -/
def StateManager.load (globalInitial : PyDict) : StateManager :=
  ⟨[], [], [], globalInitial⟩

/-- Embedding of the initial-state injection at orchestrator entry
(`orchestrator.py` lines 133-148): every supplied pair is written at
`workflow` scope for the running session. -/
def Orchestrator.injectInitialState (sm : StateManager) (initialState : PyDict)
    (sessionId : String) : StateManager :=
  initialState.foldl (fun m kv => m.set .workflow kv.1 kv.2 sessionId) sm

/-- A host-runtime session object: identity triple and mutable state map
(`google.adk.sessions.Session`, a supplied collaborator). -/
structure SessionM where
  id : String
  user_id : String
  app_name : String
  state : PyDict
deriving DecidableEq, Repr

/-- The JSON document `RedisSessionService._save_to_redis` stores under the
session key (`redis_session.py` lines 104-116), as decoded by
`json.loads`: either the structured payload, or `corrupt` for a cached
string that `json.loads` rejects (`json.JSONDecodeError`, line 69). -/
inductive CachedPayload where
  | corrupt
  | data (id : String) (user_id : String) (app_name : String) (state : PyDict)
deriving DecidableEq, Repr

/-- The two Redis key spaces the service touches: string values (`GET` /
`SETEX` on the session key) and lists (`RPUSH` on the history key).  TTLs
are set or refreshed on every write and read hit; expiry itself is not
modelled (no claim depends on the passage of time). -/
structure RedisKV where
  strings : List (String × CachedPayload)
  lists : List (String × List EventM)
deriving DecidableEq, Repr

/-- The two persistence tiers: the Redis cache and the optional durable
store.  `DatabaseSessionService` is a supplied collaborator
(`google.adk.sessions.database_session_service`); it is modelled as a map
from session id to the stored session, with `append_event` applying the
event's state delta. -/
structure Tiers where
  cache : RedisKV
  db : List (String × SessionM)
deriving DecidableEq, Repr

/-- Service configuration (`redis_session.py` lines 22-42): TTL, app name,
and whether a durable `database_url` was supplied. -/
structure RedisServiceM where
  ttl : Nat
  app_name : String
  hasDb : Bool

/-- Embedding of `RedisSessionService._get_key` (`redis_session.py` line
44). -/
def RedisServiceM.sessionKey (svc : RedisServiceM) (sessionId : String) : String :=
  svc.app_name ++ ":session:" ++ sessionId

/-- Embedding of `RedisSessionService._save_to_redis` (`redis_session.py`
lines 104-116): serialize the session's identity and state under the
session key with the service TTL. -/
def RedisServiceM.saveToRedis (svc : RedisServiceM) (t : Tiers) (s : SessionM) : Tiers :=
  let strs := alistSet t.cache.strings (svc.sessionKey s.id)
      (.data s.id s.user_id s.app_name s.state)
  { t with cache := { t.cache with strings := strs } }

/-- Embedding of `RedisSessionService.get_session` (`redis_session.py` lines
47-81).  A cached payload that is present but undecodable returns `None`
directly (line 71) — the durable store is consulted only when the cache has
no payload at all; a durable hit repopulates the cache (read-repair, lines
74-79) before returning. -/
def RedisServiceM.getSession (svc : RedisServiceM) (t : Tiers)
    (app_name user_id session_id : String) : Option SessionM × Tiers :=
  let key := svc.sessionKey session_id
  match alistGet t.cache.strings key with
  | some payload =>
    match payload with
    | .data _ _ _ st => (some ⟨session_id, user_id, app_name, st⟩, t)
    | .corrupt => (Option.none, t)
  | Option.none =>
    if svc.hasDb then
      match alistGet t.db session_id with
      | some s => (some s, svc.saveToRedis t s)
      | Option.none => (Option.none, t)
    else (Option.none, t)

/-- Embedding of `RedisSessionService.create_session` (`redis_session.py`
lines 83-102): build a session with empty state, save it to Redis, and
forward the creation to the durable store when one is configured. -/
def RedisServiceM.createSession (svc : RedisServiceM) (t : Tiers)
    (app_name user_id session_id : String) : SessionM × Tiers :=
  let s : SessionM := ⟨session_id, user_id, app_name, []⟩
  let t1 := svc.saveToRedis t s
  let t2 := if svc.hasDb then { t1 with db := alistSet t1.db session_id s } else t1
  (s, t2)

/-- The durable collaborator's `append_event`: apply the event's state delta
to the stored session (internals of the relational store are a spec
non-goal; this is its observable contract). -/
def dbAppendEvent (db : List (String × SessionM)) (session_id : String) (ev : EventM) :
    List (String × SessionM) :=
  match alistGet db session_id with
  | Option.none => db
  | some s => alistSet db session_id { s with state := alistUpdate s.state ev.delta }

/-- Embedding of `RedisSessionService.append_event` (`redis_session.py`
lines 140-226) with the session id supplied (positionally or via the
session object): push the serialized event onto the per-session history list
(lines 165-184); then either overwrite the cached snapshot wholesale with a
supplied session object (lines 190-201), or read-modify-write — decode the
cached snapshot, merge the event's state delta when it is non-empty, write
back; a decode failure or missing snapshot is logged and skipped (lines
202-222).  Finally the append is forwarded to the durable store when one is
configured (lines 224-226). -/
def RedisServiceM.appendEvent (svc : RedisServiceM) (t : Tiers) (session_id : String)
    (ev : EventM) (sessionArg : Option SessionM) : Tiers :=
  let key := svc.sessionKey session_id
  let historyKey := key ++ ":history"
  let hist := ((alistGet t.cache.lists historyKey).getD []) ++ [ev]
  let t1 : Tiers :=
    { t with cache := { t.cache with lists := alistSet t.cache.lists historyKey hist } }
  let t2 : Tiers :=
    match sessionArg with
    | some s =>
      let strs := alistSet t1.cache.strings key (.data s.id s.user_id s.app_name s.state)
      { t1 with cache := { t1.cache with strings := strs } }
    | Option.none =>
      match alistGet t1.cache.strings key with
      | some (.data i u a st) =>
        if ev.delta.isEmpty then t1
        else
          let strs := alistSet t1.cache.strings key (.data i u a (alistUpdate st ev.delta))
          { t1 with cache := { t1.cache with strings := strs } }
      | some .corrupt => t1
      | Option.none => t1
  if svc.hasDb then { t2 with db := dbAppendEvent t2.db session_id ev } else t2

/-- Predicate on a string that is a single regex word (`\w+`): the shape of
a placeholder key. -/
def isWordKey (k : String) : Bool := !k.toList.isEmpty && k.toList.all isWordChar

/-- Router node `A` whose single route targets node `B`. -/
def cfgRouterA : AgentConfigM :=
  { name := "A", type := .router, condition := some "\x7bx\x7d", routes := [("True", "B")] }

/-- Router node `B` whose single route targets node `A`, closing the cycle. -/
def cfgRouterB : AgentConfigM :=
  { name := "B", type := .router, condition := some "\x7bx\x7d", routes := [("True", "A")] }

/-- Factory over the two-node router cycle `A -> B -> A`. -/
def cyclicFactory : FactoryM := ⟨[cfgRouterA, cfgRouterB], [], "gemini-2.5-flash"⟩

/-- A minimal tool-agent declaration, used to exercise the builder on a
concrete workflow. -/
def cfgToolT : AgentConfigM := { name := "T", type := .tool, tool_name := some "t" }

/-- A one-member sequential workflow over `cfgToolT`. -/
def cfgWf : WorkflowConfigM :=
  { name := "wf", agents := [cfgToolT], workflowType := "sequential", workflowAgents := ["T"] }

/-- A service with the durable tier configured. -/
def svcWithDb : RedisServiceM := ⟨3600, "app", true⟩

/-- Tiers whose cache holds an undecodable payload for session `s1` while the
durable store holds the session with state `k = "v"`. -/
def corruptTiers : Tiers :=
  ⟨⟨[("app:session:s1", .corrupt)], []⟩,
   [("s1", ⟨"s1", "u", "app", [("k", PyVal.str "v")]⟩)]⟩

/-!  Helper lemmas. -/

theorem alistGet_alistSet {α : Type} (d : List (String × α)) (k : String) (v : α) :
    alistGet (alistSet d k v) k = some v := by
  induction d with
  | nil => simp [alistGet, alistSet]
  | cons hd tl ih =>
    obtain ⟨k', v'⟩ := hd
    by_cases h : k' = k
    · simp [alistGet, alistSet, h]
    · simp [alistGet, alistSet, h, ih]

theorem alistGet_alistUpdate_single {α : Type} (d : List (String × α)) (k : String) (v : α) :
    alistGet (alistUpdate d [(k, v)]) k = some v := by
  simp [alistUpdate, alistGet_alistSet]

theorem substFuel_nil (repl : String → String) (n : Nat) : substFuel repl n [] = [] := by
  cases n <;> rfl

theorem takeWhile_append_of_all {p : Char → Bool} (l l' : List Char)
    (h : ∀ c ∈ l, p c = true) :
    (l ++ l').takeWhile p = l ++ l'.takeWhile p := by
  induction l with
  | nil => simp
  | cons c cs ih =>
    have hc : p c = true := h c (by simp)
    simp [List.takeWhile, hc]
    exact ih (fun c hc => h c (by simp [hc]))

theorem dropWhile_append_of_all {p : Char → Bool} (l l' : List Char)
    (h : ∀ c ∈ l, p c = true) :
    (l ++ l').dropWhile p = l'.dropWhile p := by
  induction l with
  | nil => simp
  | cons c cs ih =>
    have hc : p c = true := h c (by simp)
    simp [List.dropWhile, hc]
    exact ih (fun c hc => h c (by simp [hc]))

/-- Whole-token substitution: scanning exactly the token `\x7bkey\x7d` with a
non-empty word key yields precisely the replacement text. -/
theorem substFuel_token (repl : String → String) (key : List Char) (n : Nat)
    (hne : key ≠ []) (hw : ∀ c ∈ key, isWordChar c = true) :
    substFuel repl (n + 1) ('{' :: (key ++ ['}'])) = (repl (String.mk key)).toList := by
  have hdrop : (key ++ ['}']).dropWhile isWordChar = ['}'] := by
    rw [dropWhile_append_of_all _ _ hw]; decide
  have htake : (key ++ ['}']).takeWhile isWordChar = key := by
    have h2 : List.takeWhile isWordChar ['}'] = [] := by decide
    rw [takeWhile_append_of_all _ _ hw, h2, List.append_nil]
  have hempty : key.isEmpty = false := by
    cases key with
    | nil => exact absurd rfl hne
    | cons c cs => rfl
  conv_lhs => rw [substFuel]
  rw [if_pos rfl]
  simp only [hdrop, htake, hempty, Bool.false_eq_true, if_false]
  simp [substFuel_nil]

/-- The `re.sub` pass on the exact token `\x7bk\x7d` is the replacement for
`k`. -/
theorem pySub_token (repl : String → String) (k : String) (h : isWordKey k = true) :
    pySub repl ("\x7b" ++ k ++ "\x7d") = repl k := by
  have hparts : ((!k.toList.isEmpty) = true) ∧ (k.toList.all isWordChar = true) := by
    simpa [isWordKey, Bool.and_eq_true] using h
  have hne : k.toList ≠ [] := by
    have := hparts.1
    cases hk : k.toList with
    | nil => rw [hk] at this; simp at this
    | cons c cs => simp
  have hw : ∀ c ∈ k.toList, isWordChar c = true := by
    have := hparts.2
    simpa [List.all_eq_true] using this
  have htl : ("\x7b" ++ k ++ "\x7d").toList = '{' :: (k.toList ++ ['}']) := rfl
  unfold pySub
  rw [htl]
  simp only [List.length_cons]
  rw [substFuel_token repl k.toList _ hne hw]
  cases k; rfl

/-- A word-key token is never the empty string. -/
theorem token_ne_empty (k : String) : ("\x7b" ++ k ++ "\x7d") ≠ "" := by
  intro hcontra
  have : ("\x7b" ++ k ++ "\x7d").toList = ("" : String).toList := by rw [hcontra]
  have h2 : ("\x7b" ++ k ++ "\x7d").toList = '{' :: (k.toList ++ ['}']) := rfl
  rw [h2] at this
  simp at this

/-!  Claim theorems. -/

/-- C1: the claim says compiling a definition in which router `A` routes to
`B` and router `B` routes back to `A` terminates and memoizes both names to
one shared instance.  The code fails this: `create_agent` writes its memo
entry only after the variant constructor returns (`agent_factory.py` line
82), so resolving `A`'s route recreates `B`, whose route recreates `A`, with
the memo still empty — the compilation exhausts every fuel bound, i.e. the
source recurses unboundedly (in CPython this surfaces as a RecursionError). -/
theorem c1_router_cycle_compilation_diverges (n : Nat) :
    create_agent cyclicFactory n cfgRouterA [] = .out ∧
    create_agent cyclicFactory n cfgRouterB [] = .out := by
  induction n with
  | zero => exact ⟨rfl, rfl⟩
  | succ n ih =>
    obtain ⟨ihA, ihB⟩ := ih
    simp only [cfgRouterA, cfgRouterB, cyclicFactory] at ihA ihB ⊢
    constructor
    · simp only [create_agent]
      simp [getAgentByName, alistGet, ihB]
    · simp only [create_agent]
      simp [getAgentByName, alistGet, ihA]

/-- C2: a scoped-state read resolves agent, then workflow, then user, then
global, first hit wins, regardless of the caller's scope hint; and after a
global initial `env="a"` followed by the orchestrator's workflow-scope
injection of `env="b"`, a resolved read of `env` returns `"b"` (the
`StateManager` is modelled from the spec: its class is not under `src/`). -/
theorem c2_scoped_state_shadowing (sm : StateManager) (hint hint2 : Scope)
    (key sid : String) :
    (StateManager.get sm hint key sid = StateManager.get sm hint2 key sid) ∧
    (∀ v, alistGet (sm.storeFor .agent sid) key = some v →
      StateManager.get sm hint key sid = some v) ∧
    (alistGet (sm.storeFor .agent sid) key = Option.none →
      ∀ v, alistGet (sm.storeFor .workflow sid) key = some v →
        StateManager.get sm hint key sid = some v) ∧
    (alistGet (sm.storeFor .agent sid) key = Option.none →
      alistGet (sm.storeFor .workflow sid) key = Option.none →
      ∀ v, alistGet (sm.storeFor .user sid) key = some v →
        StateManager.get sm hint key sid = some v) ∧
    (alistGet (sm.storeFor .agent sid) key = Option.none →
      alistGet (sm.storeFor .workflow sid) key = Option.none →
      alistGet (sm.storeFor .user sid) key = Option.none →
      StateManager.get sm hint key sid = alistGet (sm.storeFor .globalS sid) key) ∧
    ((Orchestrator.injectInitialState (StateManager.load [("env", PyVal.str "a")])
        [("env", PyVal.str "b")] sid).get hint "env" sid = some (PyVal.str "b")) ∧
    ((StateManager.load [("env", PyVal.str "a")]).get hint "env" sid
      = some (PyVal.str "a")) := by
  refine ⟨rfl, ?_, ?_, ?_, ?_, ?_, ?_⟩
  · intro v hv
    unfold StateManager.get
    rw [hv]
  · intro ha v hv
    unfold StateManager.get
    rw [ha, hv]
  · intro ha hw v hv
    unfold StateManager.get
    rw [ha, hw, hv]
  · intro ha hw hu
    unfold StateManager.get
    rw [ha, hw, hu]
  · simp [Orchestrator.injectInitialState, StateManager.load, StateManager.set,
      StateManager.get, StateManager.storeFor, alistGet, alistSet]
  · simp [StateManager.load, StateManager.get, StateManager.storeFor, alistGet]

/-- C3: for the router with condition `\x7bx\x7d > 5` and routes keyed
`"True"` and `"False"`, state `x=10` dispatches to the child keyed `"True"`,
state `x=3` to the child keyed `"False"`, and a state without `x` makes the
invocation raise the condition-evaluation failure rather than silently
taking a false branch. -/
theorem c3_router_condition_dispatch :
    RouterAgent.runAsyncImpl ⟨"router", "\x7bx\x7d > 5", [("True", "A"), ("False", "B")]⟩
        [("x", PyVal.int 10)] = .ok (.dispatched "A") ∧
    RouterAgent.runAsyncImpl ⟨"router", "\x7bx\x7d > 5", [("True", "A"), ("False", "B")]⟩
        [("x", PyVal.int 3)] = .ok (.dispatched "B") ∧
    RouterAgent.runAsyncImpl ⟨"router", "\x7bx\x7d > 5", [("True", "A"), ("False", "B")]⟩
        [] = .error "Router condition evaluation failed: name x is not defined" :=
  ⟨rfl, rfl, rfl⟩

/-- C4 counterexample: the claim says boolean-cased keys are interchangeable
in both directions, so a condition result that stringifies to `"true"`
should select a route keyed `"True"`.  It does not: the normalization of
`router_agent.py` lines 98-102 only fires when the result key is exactly
`"True"` or `"False"`, so the lookup misses and the router emits its
no-route diagnostic instead of dispatching. -/
theorem c4_boolean_casing_counterexample :
    RouterAgent.runAsyncImpl ⟨"router", "\x7bx\x7d", [("True", "A")]⟩
        [("x", PyVal.str "true")]
      = .ok (.missEvent "Router router: No route found for result true (Routes: True)") ∧
    RouterAgent.runAsyncImpl ⟨"router", "\x7bx\x7d", [("True", "A")]⟩
        [("x", PyVal.str "true")] ≠ .ok (.dispatched "A") := by
  refine ⟨rfl, ?_⟩
  intro h
  rw [show RouterAgent.runAsyncImpl ⟨"router", "\x7bx\x7d", [("True", "A")]⟩
        [("x", PyVal.str "true")]
      = .ok (.missEvent "Router router: No route found for result true (Routes: True)")
    from rfl] at h
  simp at h

/-- C4 (amended): route-key normalization is one-directional — a result key
`"True"` falls back to the route keyed `"true"` and `"False"` to `"false"`,
while any other result key (including `"true"` and `"false"`) is looked up
verbatim with no casing retry. -/
theorem c4_boolean_casing_one_directional {α : Type} (routes : List (String × α))
    (rk : String) (h1 : rk ≠ "True") (h2 : rk ≠ "False") :
    (RouterAgent.selectRoute routes "True"
       = match alistGet routes "True" with
         | some a => some a
         | Option.none => alistGet routes "true") ∧
    (RouterAgent.selectRoute routes "False"
       = match alistGet routes "False" with
         | some a => some a
         | Option.none => alistGet routes "false") ∧
    RouterAgent.selectRoute routes rk = alistGet routes rk := by
  refine ⟨?_, ?_, ?_⟩
  · unfold RouterAgent.selectRoute
    cases alistGet routes "True" <;> simp
  · unfold RouterAgent.selectRoute
    cases alistGet routes "False" <;> simp
  · unfold RouterAgent.selectRoute
    cases alistGet routes rk <;> simp [h1, h2]

/-- Witness for C4 at the route table keyed `"True"` and the lowercase
result key `"true"`: the verbatim lookup applies (and misses). -/
theorem c4_boolean_casing_witness :
    RouterAgent.selectRoute [("True", "A")] "true" = alistGet [("True", "A")] "true" :=
  (c4_boolean_casing_one_directional [("True", "A")] "true" (by decide) (by decide)).2.2

/-- C5: every workflow definition that compiles, regardless of structural
type, yields as root the fixed three-member sequential bracket — a Start
node first, the user-declared root, then an Exit node — and the Start node
seeds its supplied initial state into the session, recording the same pairs
as its event's state delta. -/
theorem c5_lifecycle_bracket (cfg : WorkflowConfigM) (tools : List String) (fuel : Nat)
    (r : BNode) (h : WorkflowBuilder.buildFromConfig cfg tools fuel = .ok r) :
    (∃ u, WorkflowBuilder.buildW cfg tools fuel = .ok u ∧
      r = .seq (u.nameOf ++ "_lifecycle")
            [.startA "workflow_start" [], u, .exitA "workflow_exit" false Option.none []]) ∧
    (∀ (initSt sess : PyDict) (name : String),
      (StartAgent.run initSt name sess).1 = alistUpdate sess initSt ∧
      (StartAgent.run initSt name sess).2.delta = alistUpdate [] initSt ∧
      (StartAgent.run initSt name sess).2.author = name) := by
  constructor
  · unfold WorkflowBuilder.buildFromConfig at h
    cases hb : WorkflowBuilder.buildW cfg tools fuel with
    | ok u =>
      rw [hb] at h
      cases h
      exact ⟨u, rfl, rfl⟩
    | err e => rw [hb] at h; cases h
    | out => rw [hb] at h; cases h
  · intro initSt sess name
    exact ⟨rfl, rfl, rfl⟩

/-- Witness for C5 on the concrete one-member sequential workflow `cfgWf`:
the compiled root is the Start / user-root / Exit bracket. -/
theorem c5_lifecycle_bracket_witness :
    WorkflowBuilder.buildFromConfig cfgWf ["t"] 3
      = .ok (.seq "wf_lifecycle"
          [.startA "workflow_start" [],
           .seq "wf" [.toolA "T" "t" [] Option.none],
           .exitA "workflow_exit" false Option.none []]) ∧
    (∃ u, WorkflowBuilder.buildW cfgWf ["t"] 3 = .ok u ∧
      (.seq "wf_lifecycle"
          [.startA "workflow_start" [],
           .seq "wf" [.toolA "T" "t" [] Option.none],
           .exitA "workflow_exit" false Option.none []] : BNode)
        = .seq (u.nameOf ++ "_lifecycle")
            [.startA "workflow_start" [], u, .exitA "workflow_exit" false Option.none []]) :=
  ⟨rfl, (c5_lifecycle_bracket cfgWf ["t"] 3 _ rfl).1⟩

/-- C6 counterexample: the claim says every token whose key is present in
state is replaced by the stringified value; but a key bound to `None` is
replaced by the empty string, not by `str(None) = "None"`
(`tool_agent.py` line 38). -/
theorem c6_template_resolution_counterexample :
    ToolAgent.resolveArguments [("q", PyVal.str "\x7btopic\x7d")] [("topic", PyVal.none)]
      = [("q", PyVal.str "")] ∧
    pyStr PyVal.none = "None" ∧
    [("q", PyVal.str "")] ≠ [("q", PyVal.str (pyStr PyVal.none))] := by
  refine ⟨rfl, rfl, ?_⟩
  intro h
  simp [pyStr] at h

/-- C6 (amended): templated argument resolution is a single non-recursive
pass; a token whose key is present with a non-`None` value becomes the
stringified value, a present-but-`None` key becomes the empty string, a
missing key leaves the literal token, and non-string argument values pass
through unchanged — with the claim's examples `topic="cats"` and `topic`
absent, and a substituted value containing a token not being rescanned. -/
theorem c6_template_resolution_single_pass (k : String) (hk : isWordKey k = true)
    (st : PyDict) :
    (∀ v, alistGet st k = some v → v ≠ PyVal.none →
      ToolAgent.resolveArguments [("q", PyVal.str ("\x7b" ++ k ++ "\x7d"))] st
        = [("q", PyVal.str (pyStr v))]) ∧
    (alistGet st k = some PyVal.none →
      ToolAgent.resolveArguments [("q", PyVal.str ("\x7b" ++ k ++ "\x7d"))] st
        = [("q", PyVal.str "")]) ∧
    (alistGet st k = Option.none →
      ToolAgent.resolveArguments [("q", PyVal.str ("\x7b" ++ k ++ "\x7d"))] st
        = [("q", PyVal.str ("\x7b" ++ k ++ "\x7d"))]) ∧
    (∀ (name : String) (v : PyVal), (∀ s, v ≠ PyVal.str s) →
      ToolAgent.resolveArguments [(name, v)] st = [(name, v)]) ∧
    ToolAgent.resolveArguments [("q", PyVal.str "\x7btopic\x7d")]
        [("topic", PyVal.str "cats")] = [("q", PyVal.str "cats")] ∧
    ToolAgent.resolveArguments [("q", PyVal.str "\x7btopic\x7d")] []
      = [("q", PyVal.str "\x7btopic\x7d")] ∧
    ToolAgent.resolveArguments [("q", PyVal.str "\x7btopic\x7d")]
        [("topic", PyVal.str "\x7bother\x7d"), ("other", PyVal.str "x")]
      = [("q", PyVal.str "\x7bother\x7d")] := by
  have htok : ∀ state : PyDict,
      pySub (placeholderValue state) ("\x7b" ++ k ++ "\x7d") = placeholderValue state k :=
    fun state => pySub_token (placeholderValue state) k hk
  refine ⟨?_, ?_, ?_, ?_, rfl, rfl, rfl⟩
  · intro v hv hvn
    simp only [ToolAgent.resolveArguments, List.map, htok]
    unfold placeholderValue
    rw [hv]
    cases v with
    | none => exact absurd rfl hvn
    | bool b => rfl
    | int n => rfl
    | str s => rfl
  · intro hv
    simp only [ToolAgent.resolveArguments, List.map, htok]
    unfold placeholderValue
    rw [hv]
  · intro hv
    simp only [ToolAgent.resolveArguments, List.map, htok]
    unfold placeholderValue
    rw [hv]
  · intro name v hvs
    cases v with
    | str s => exact absurd rfl (hvs s)
    | none => rfl
    | bool b => rfl
    | int n => rfl

/-- Witness for C6 at `k := "topic"` with state `topic = "cats"`: the token
resolves to the stringified value. -/
theorem c6_template_resolution_witness :
    ToolAgent.resolveArguments [("q", PyVal.str ("\x7b" ++ "topic" ++ "\x7d"))]
        [("topic", PyVal.str "cats")]
      = [("q", PyVal.str (pyStr (PyVal.str "cats")))] :=
  (c6_template_resolution_single_pass "topic" (by decide)
      [("topic", PyVal.str "cats")]).1 (PyVal.str "cats") rfl (by decide)

/-- C7: any exception raised by the registered callable is caught at the
tool-node boundary and converted into the textual result
`"Tool execution error: ..."` carried by the node's emitted event, stored
under the configured output key when one is set; the node invocation
returns normally (no exception escapes) and execution continues. -/
theorem c7_tool_error_containment (a : ToolAgentM) (st : PyDict) (msg : String)
    (call : List (String × PyVal) → ToolCallOutcome)
    (hcall : call (ToolAgent.resolveArguments a.arguments st) = .raises msg) :
    ∃ ev newState, a.runAsyncImpl st call = .ok (ev, newState) ∧
      ev.text = "Tool execution error: " ++ msg ∧
      (∀ k, a.output_key = some k →
        alistGet newState k = some (PyVal.str ev.text) ∧
        ev.delta = [(k, PyVal.str ev.text)]) := by
  simp only [ToolAgentM.runAsyncImpl, hcall]
  cases hk : a.output_key with
  | some k =>
    refine ⟨_, _, rfl, rfl, ?_⟩
    intro k' hk'
    cases hk'
    exact ⟨alistGet_alistSet _ _ _, rfl⟩
  | none =>
    refine ⟨_, _, rfl, rfl, ?_⟩
    intro k' hk'
    cases hk'

/-- Witness for C7 at a concrete tool node with output key `"out"` and a
callable that raises `"boom"`. -/
theorem c7_tool_error_containment_witness :
    ∃ ev newState,
      ToolAgentM.runAsyncImpl ⟨"t", [], some "out"⟩ []
          (fun _ => .raises "boom") = .ok (ev, newState) ∧
      ev.text = "Tool execution error: " ++ "boom" ∧
      (∀ k, (some "out" : Option String) = some k →
        alistGet newState k = some (PyVal.str ev.text) ∧
        ev.delta = [(k, PyVal.str ev.text)]) :=
  c7_tool_error_containment ⟨"t", [], some "out"⟩ [] "boom"
    (fun _ => .raises "boom") rfl

/-- C8: on the cache-backed session store, `create` followed by `get`
returns a session with empty state; and `append_event` carrying the state
delta `k = "v"` followed by `get` returns a session whose state contains
`k = "v"`, on both the supplied-session-object fast path (wholesale cache
overwrite with the already-current session, whose state includes the delta)
and the read-modify-write fallback path (delta merged into the decodable
cached snapshot). -/
theorem c8_session_roundtrip (svc : RedisServiceM) (t : Tiers) (app user sid : String) :
    ((svc.createSession t app user sid).1.state = [] ∧
     (svc.getSession (svc.createSession t app user sid).2 app user sid).1
        = some ⟨sid, user, app, []⟩) ∧
    (∀ (s : SessionM) (ev : EventM),
      alistGet s.state "k" = some (PyVal.str "v") →
      ∃ sess, (svc.getSession (svc.appendEvent t sid ev (some s)) app user sid).1
          = some sess ∧
        alistGet sess.state "k" = some (PyVal.str "v")) ∧
    (∀ (i u a author txt : String) (st : PyDict),
      alistGet t.cache.strings (svc.sessionKey sid) = some (.data i u a st) →
      ∃ sess,
        (svc.getSession
            (svc.appendEvent t sid ⟨author, txt, [("k", PyVal.str "v")]⟩ Option.none)
            app user sid).1 = some sess ∧
        alistGet sess.state "k" = some (PyVal.str "v")) := by
  refine ⟨⟨rfl, ?_⟩, ?_, ?_⟩
  · unfold RedisServiceM.createSession RedisServiceM.getSession RedisServiceM.saveToRedis
    cases hdb : svc.hasDb <;>
      simp [alistGet_alistSet]
  · intro s ev hs
    unfold RedisServiceM.appendEvent RedisServiceM.getSession
    cases hdb : svc.hasDb <;>
      simp [alistGet_alistSet] <;>
      exact hs
  · intro i u a author txt st hcache
    unfold RedisServiceM.appendEvent RedisServiceM.getSession
    cases hdb : svc.hasDb <;>
      simp [hcache, alistGet_alistSet, alistGet_alistUpdate_single]

/-- C9 counterexample: the claim says a cached payload that cannot be
decoded is treated exactly as a cache miss, with `get` then consulting the
configured durable store and returning the durable session.  The code
instead returns absent directly from the decode failure
(`redis_session.py` line 71): with the durable tier configured and holding
session `s1`, `get` on the corrupt cache entry returns `None`. -/
theorem c9_corrupt_cache_counterexample :
    (svcWithDb.getSession corruptTiers "app" "u" "s1").1 = Option.none ∧
    svcWithDb.hasDb = true ∧
    alistGet corruptTiers.db "s1" = some ⟨"s1", "u", "app", [("k", PyVal.str "v")]⟩ :=
  ⟨rfl, rfl, rfl⟩

/-- C9 (amended): a corrupted cached payload makes `get` return absent
without error, without consulting the durable store and without touching
the tiers; only a cache entry that is absent altogether falls through to
the durable store — a durable hit is returned after read-repairing the
cache, and `get` returns absent only when both tiers miss. -/
theorem c9_corrupt_cache_is_absent (svc : RedisServiceM) (t : Tiers)
    (app user sid : String) :
    (alistGet t.cache.strings (svc.sessionKey sid) = some .corrupt →
      svc.getSession t app user sid = (Option.none, t)) ∧
    (alistGet t.cache.strings (svc.sessionKey sid) = Option.none → svc.hasDb = true →
      ∀ s, alistGet t.db sid = some s →
        svc.getSession t app user sid = (some s, svc.saveToRedis t s) ∧
        alistGet (svc.saveToRedis t s).cache.strings (svc.sessionKey s.id)
          = some (.data s.id s.user_id s.app_name s.state)) ∧
    (alistGet t.cache.strings (svc.sessionKey sid) = Option.none →
      (svc.hasDb = false ∨ alistGet t.db sid = Option.none) →
      (svc.getSession t app user sid).1 = Option.none) := by
  refine ⟨?_, ?_, ?_⟩
  · intro hc
    simp only [RedisServiceM.getSession, hc]
  · intro hc hdb s hs
    simp only [RedisServiceM.getSession, hc, hdb, hs, if_true]
    refine ⟨trivial, ?_⟩
    unfold RedisServiceM.saveToRedis
    simp [alistGet_alistSet]
  · intro hc hmiss
    simp only [RedisServiceM.getSession, hc]
    rcases hmiss with hdb | hs
    · simp [hdb]
    · cases hdb : svc.hasDb <;> simp [hs]

/-- C10: a `\x7bkey\x7d` token whose key is present in the state snapshot
but bound to `None` resolves to the empty string, in both the tool-argument
and the external-call string resolution, while a token whose key is missing
is left as the literal token — so present-but-`None` and missing produce
different resolved strings. -/
theorem c10_none_vs_missing (k : String) (hk : isWordKey k = true) :
    ExternalAgent.resolveString ("\x7b" ++ k ++ "\x7d") [(k, PyVal.none)] = "" ∧
    ExternalAgent.resolveString ("\x7b" ++ k ++ "\x7d") [] = "\x7b" ++ k ++ "\x7d" ∧
    ToolAgent.resolveArguments [("a", PyVal.str ("\x7b" ++ k ++ "\x7d"))] [(k, PyVal.none)]
      = [("a", PyVal.str "")] ∧
    ToolAgent.resolveArguments [("a", PyVal.str ("\x7b" ++ k ++ "\x7d"))] []
      = [("a", PyVal.str ("\x7b" ++ k ++ "\x7d"))] ∧
    ("" : String) ≠ "\x7b" ++ k ++ "\x7d" := by
  have htok : ∀ state : PyDict,
      pySub (placeholderValue state) ("\x7b" ++ k ++ "\x7d") = placeholderValue state k :=
    fun state => pySub_token (placeholderValue state) k hk
  have hne := token_ne_empty k
  refine ⟨?_, ?_, ?_, ?_, fun h => hne h.symm⟩
  · unfold ExternalAgent.resolveString
    rw [if_neg hne, htok]
    unfold placeholderValue
    simp [alistGet]
  · unfold ExternalAgent.resolveString
    rw [if_neg hne, htok]
    unfold placeholderValue
    simp [alistGet]
  · simp only [ToolAgent.resolveArguments, List.map, htok]
    unfold placeholderValue
    simp [alistGet]
  · simp only [ToolAgent.resolveArguments, List.map, htok]
    unfold placeholderValue
    simp [alistGet]

/-- Witness for C10 at `k := "topic"`: a present-but-`None` key resolves to
the empty string while the same token over empty state stays literal. -/
theorem c10_none_vs_missing_witness :
    ExternalAgent.resolveString ("\x7b" ++ "topic" ++ "\x7d") [("topic", PyVal.none)] = "" ∧
    ExternalAgent.resolveString ("\x7b" ++ "topic" ++ "\x7d") []
      = "\x7b" ++ "topic" ++ "\x7d" :=
  ⟨(c10_none_vs_missing "topic" (by decide)).1, (c10_none_vs_missing "topic" (by decide)).2.1⟩
